import Mathlib

/-!
Shallow embedding of the pxd tag service (Cloudflare worker + CLI cache logic)
and proofs about the specification claims.

The worker source (`src/unnamed/part_002`) is embedded in namespace `Pxd`:
the D1 store becomes an explicit `Store` value threaded through the request
handler, `Date.now()` becomes an explicit `now : Nat` argument, and the
random draws of `Math.floor(Math.random() * CHARSET.length)` become explicit
`Fin 32` arguments.  String routines (`startsWith`, `slice`, `split`) are
re-implemented over `List Char` so that every definition reduces in the
kernel; paths are ASCII so this agrees with the JavaScript code-unit
semantics.
-/

namespace Pxd

/-- JavaScript `s.startsWith(pre)` on ASCII strings. -/
def strStarts (pre s : String) : Bool :=
  List.isPrefixOf pre.toList s.toList

/-- JavaScript `s.slice(n)` on ASCII strings. -/
def strDrop (s : String) (n : Nat) : String :=
  String.mk (s.toList.drop n)

/-- First `n` characters, used to state facts about the generated id. -/
def strTake (s : String) (n : Nat) : String :=
  String.mk (s.toList.take n)

/-- Splitter used to model JavaScript `path.split('/')`. -/
def splitCharAux (c : Char) : List Char → List Char → List (List Char)
  | [], acc => [acc.reverse]
  | x :: xs, acc =>
    if x = c then acc.reverse :: splitCharAux c xs []
    else splitCharAux c xs (x :: acc)

/-- JavaScript `path.split('/')`. -/
def splitSlash (s : String) : List String :=
  (splitCharAux '/' s.toList []).map String.mk

/-- JavaScript `path.split('/')[i]` (routes only read in-bounds parts). -/
def pathPart (s : String) (i : Nat) : String :=
  (splitSlash s).getD i ""

/-- Character class `[a-z0-9]` of the link-route regexes. -/
def isLowerDigitChar (c : Char) : Bool :=
  ('a' ≤ c && c ≤ 'z') || ('0' ≤ c && c ≤ '9')

/-- Character class `[a-z]` of the remove-link route regex. -/
def isLowerChar (c : Char) : Bool :=
  'a' ≤ c && c ≤ 'z'

/-- The worker test for the route regex ^/id/[a-z0-9]+/link$ . -/
def matchLinkPost (path : String) : Bool :=
  match splitSlash path with
  | [a, b, id, d] =>
    a == "" && b == "id" && d == "link" && !(id == "") && id.toList.all isLowerDigitChar
  | _ => false

/-- The worker test for the route regex ^/id/[a-z0-9]+/link/[a-z]+$ . -/
def matchLinkDelete (path : String) : Bool :=
  match splitSlash path with
  | [a, b, id, d, ty] =>
    a == "" && b == "id" && d == "link" && !(id == "") && id.toList.all isLowerDigitChar
      && !(ty == "") && ty.toList.all isLowerChar
  | _ => false

/-! ### Data model (D1 schema, `src/unnamed/part_002` lines 1-21) -/

/-- Row of the `tags` table.  `meta` holds the JSON blob in its serialized
form, exactly as the TEXT column does. -/
structure Tag where
  id : String
  name : String
  meta : String
  created_at : Nat
  updated_at : Nat
deriving DecidableEq

/-- Row of the `links` table (the AUTOINCREMENT key is omitted: nothing in
the program reads it). -/
structure Link where
  tag_id : String
  type : String
  url : String
  created_at : Nat
deriving DecidableEq

/-- The D1 database: both tables, rows in insertion order. -/
structure Store where
  tags : List Tag
  links : List Link
deriving DecidableEq

/-- SELECT id FROM tags WHERE id = ? — existence check. -/
def tagExists (store : Store) (id : String) : Bool :=
  store.tags.any (fun t => t.id == id)

/-! ### ID generation (`src/unnamed/part_002` lines 42-49) -/

/-- The generator alphabet, verbatim from the source. -/
def CHARSET : String := "abcdefghijkmnpqrstuvwxyz23456789"

/-- CHARSET[i] for an in-range index. -/
def charsetChar (i : Fin 32) : Char :=
  CHARSET.toList.getD i.val ' '

/-- The id generator.  The seven draws of
`Math.floor(Math.random() * CHARSET.length)` are passed explicitly, each a
number in `[0, 32)`. -/
def generateId (draws : Fin 7 → Fin 32) : String :=
  "px" ++ String.mk ((List.finRange 7).map (fun j => charsetChar (draws j)))

/-! ### Authorization gate (`src/unnamed/part_002` lines 51-57) -/

inductive Role where
  | admin
  | agent
  | none
deriving DecidableEq

structure Env where
  PXD_ADMIN_KEY : String
  PXD_AGENT_KEY : String
deriving DecidableEq

inductive Method where
  | GET
  | POST
  | PUT
  | DELETE
deriving DecidableEq

/-- Parsed JSON request body; each handler reads the fields it casts to.
`Option.none` models an absent field, and the meta object is carried in
serialized form (`Option.some m` is a defined object whose
`JSON.stringify` is `m`; objects are never falsy in JavaScript). -/
structure Body where
  name : Option String
  meta : Option String
  type : Option String
  url : Option String
deriving DecidableEq

/-- An incoming request: method, `url.pathname`, the `X-PXD-Key` header
(`Option.none` when absent) and the `?q=` search parameter. -/
structure Request where
  method : Method
  path : String
  key : Option String
  q : Option String
  body : Body
deriving DecidableEq

/-- getRole, verbatim: an absent or empty header is falsy, then the key is
compared with the admin secret before the agent secret. -/
def getRole (request : Request) (env : Env) : Role :=
  match request.key with
  | Option.none => Role.none
  | Option.some key =>
    if key = "" then Role.none
    else if key = env.PXD_ADMIN_KEY then Role.admin
    else if key = env.PXD_AGENT_KEY then Role.agent
    else Role.none

/-! ### Responses -/

/-- The JSON payloads the worker serializes. -/
inductive RespData where
  | errorData (msg : String)
  | okData
  | healthData
  | createdData (id name meta : String) (created_at : Nat)
  | tagData (tag : Tag) (links : List Link)
  | rowsData (rows : List Tag)
deriving DecidableEq

structure Response where
  status : Nat
  data : RespData
deriving DecidableEq

/-! ### Handlers -/

/-- JavaScript falsiness of an optional string field. -/
def falsy : Option String → Bool
  | Option.none => true
  | Option.some s => s == ""

/-- JSON.stringify(body.meta || {}) in the serialized-string model. -/
def metaStr (m : Option String) : String := m.getD "{}"

/-- The do/while collision-retry loop of POST /id.  `i` is the index of the
next generator call, `fuel` the number of attempts left (10 at the top).
Returns the first generated id not present, or `Option.none` when every
candidate collides. -/
def allocLoop (ex : String → Bool) (gen : Nat → String) : Nat → Nat → Option String
  | _, 0 => Option.none
  | i, fuel + 1 =>
    if ex (gen i) then allocLoop ex gen (i + 1) fuel else Option.some (gen i)

/-- The bounded allocation of POST /id: at most 10 generate-and-check
attempts. -/
def allocId (ex : String → Bool) (gen : Nat → String) : Option String :=
  allocLoop ex gen 0 10

/-- POST /id (lines 88-110): reject a falsy name, retry id generation up to
10 times, then insert one row with created_at = updated_at = now. -/
def postId (store : Store) (now : Nat) (gen : Nat → String) (body : Body) :
    Response × Store :=
  match body.name with
  | Option.none => (⟨400, RespData.errorData "name required"⟩, store)
  | Option.some n =>
    if n = "" then (⟨400, RespData.errorData "name required"⟩, store)
    else
      match allocId (tagExists store) gen with
      | Option.none => (⟨500, RespData.errorData "Failed to generate unique ID"⟩, store)
      | Option.some id =>
        (⟨201, RespData.createdData id n (metaStr body.meta) now⟩,
         ⟨store.tags ++ [⟨id, n, metaStr body.meta, now, now⟩], store.links⟩)

/-- GET /id/:id (lines 112-125). -/
def getId (store : Store) (id : String) : Response × Store :=
  match store.tags.find? (fun t => t.id == id) with
  | Option.none => (⟨404, RespData.errorData "Not found"⟩, store)
  | Option.some t =>
    (⟨200, RespData.tagData t (store.links.filter (fun l => l.tag_id == id))⟩, store)

/-- The row produced by the dynamic UPDATE of PUT /id/:id: name is set only
when `body.name` is truthy, meta whenever the field is present, and
updated_at always. -/
def updatedTag (body : Body) (now : Nat) (t : Tag) : Tag :=
  { t with
    name := match body.name with
            | Option.some s => if s = "" then t.name else s
            | Option.none => t.name,
    meta := body.meta.getD t.meta,
    updated_at := now }

/-- PUT /id/:id (lines 128-157), after the admin check. -/
def putId (store : Store) (id : String) (body : Body) (now : Nat) :
    Response × Store :=
  if tagExists store id then
    (⟨200, RespData.okData⟩,
     ⟨store.tags.map (fun t => if t.id = id then updatedTag body now t else t),
      store.links⟩)
  else (⟨404, RespData.errorData "Not found"⟩, store)

/-- DELETE /id/:id (lines 159-166), after the admin check; the schema's
ON DELETE CASCADE removes the tag's links. -/
def deleteId (store : Store) (id : String) : Response × Store :=
  (⟨200, RespData.okData⟩,
   ⟨store.tags.filter (fun t => !(t.id == id)),
    store.links.filter (fun l => !(l.tag_id == id))⟩)

/-- POST /id/:id/link (lines 168-182). -/
def postLink (store : Store) (id : String) (body : Body) (now : Nat) :
    Response × Store :=
  if falsy body.type || falsy body.url then
    (⟨400, RespData.errorData "type and url required"⟩, store)
  else
    match body.type, body.url with
    | Option.some ty, Option.some u =>
      if tagExists store id then
        (⟨201, RespData.okData⟩, ⟨store.tags, store.links ++ [⟨id, ty, u, now⟩]⟩)
      else (⟨404, RespData.errorData "Tag not found"⟩, store)
    | _, _ => (⟨400, RespData.errorData "type and url required"⟩, store)

/-- DELETE /id/:id/link/:type (lines 184-194), after the admin check. -/
def deleteLink (store : Store) (id ty : String) : Response × Store :=
  (⟨200, RespData.okData⟩,
   ⟨store.tags, store.links.filter (fun l => !(l.tag_id == id && l.type == ty))⟩)

/-- ASCII lower-casing, modelling the case-insensitivity of SQLite LIKE. -/
def lowerChar (c : Char) : Char :=
  if 'A' ≤ c && c ≤ 'Z' then Char.ofNat (c.toNat + 32) else c

/-- Case-insensitive substring test modelling name LIKE '%q%'. -/
def likeContains (name q : String) : Bool :=
  let l := name.toList.map lowerChar
  let p := q.toList.map lowerChar
  (List.range (l.length + 1)).any (fun i => (l.drop i).take p.length == p)

/-- Insertion step for ORDER BY updated_at DESC. -/
def insertByUpdatedDesc (t : Tag) : List Tag → List Tag
  | [] => [t]
  | u :: us =>
    if t.updated_at ≤ u.updated_at then u :: insertByUpdatedDesc t us
    else t :: u :: us

/-- Deterministic model of ORDER BY updated_at DESC. -/
def sortByUpdatedDesc (l : List Tag) : List Tag :=
  l.foldr insertByUpdatedDesc []

/-- GET /search?q= (lines 196-207). -/
def searchTags (store : Store) (q : String) : Response × Store :=
  (⟨200, RespData.rowsData
      ((sortByUpdatedDesc (store.tags.filter (fun t => likeContains t.name q))).take 50)⟩,
   store)

/-- GET /list (lines 209-215); the projection drops meta. -/
def listTags (store : Store) : Response × Store :=
  (⟨200, RespData.rowsData
      (((sortByUpdatedDesc store.tags).take 100).map (fun t =>
        ⟨t.id, t.name, "", t.created_at, t.updated_at⟩))⟩,
   store)

/-- The worker's fetch handler (lines 70-218), with the routes in source
order.  In particular the `DELETE` + `path.startsWith('/id/')` route comes
before the remove-link route, exactly as in the source. -/
def fetch (env : Env) (req : Request) (store : Store) (now : Nat)
    (gen : Nat → String) : Response × Store :=
  if req.path = "/health" then (⟨200, RespData.healthData⟩, store)
  else if getRole req env = Role.none then
    (⟨401, RespData.errorData "Unauthorized"⟩, store)
  else if req.method = Method.POST ∧ req.path = "/id" then
    postId store now gen req.body
  else if req.method = Method.GET ∧ strStarts "/id/" req.path = true then
    getId store (strDrop req.path 4)
  else if req.method = Method.PUT ∧ strStarts "/id/" req.path = true then
    if getRole req env ≠ Role.admin then
      (⟨403, RespData.errorData "Admin required"⟩, store)
    else putId store (strDrop req.path 4) req.body now
  else if req.method = Method.DELETE ∧ strStarts "/id/" req.path = true then
    if getRole req env ≠ Role.admin then
      (⟨403, RespData.errorData "Admin required"⟩, store)
    else deleteId store (strDrop req.path 4)
  else if req.method = Method.POST ∧ matchLinkPost req.path = true then
    postLink store (pathPart req.path 2) req.body now
  else if req.method = Method.DELETE ∧ matchLinkDelete req.path = true then
    if getRole req env ≠ Role.admin then
      (⟨403, RespData.errorData "Admin required"⟩, store)
    else deleteLink store (pathPart req.path 2) (pathPart req.path 4)
  else if req.method = Method.GET ∧ req.path = "/search" then
    searchTags store (req.q.getD "")
  else if req.method = Method.GET ∧ req.path = "/list" then
    listTags store
  else (⟨404, RespData.errorData "Not found"⟩, store)

/-! ### Path helper lemmas -/

theorem ne_of_strStarts_id (p : String) (h : strStarts "/id/" p = true) :
    p ≠ "/health" ∧ p ≠ "/id" ∧ p ≠ "/search" ∧ p ≠ "/list" := by
  refine ⟨?_, ?_, ?_, ?_⟩ <;> intro e <;> rw [e] at h <;> exact absurd h (by decide)

theorem ne_of_matchLinkPost (p : String) (h : matchLinkPost p = true) :
    p ≠ "/health" ∧ p ≠ "/id" := by
  refine ⟨?_, ?_⟩ <;> intro e <;> rw [e] at h <;> exact absurd h (by decide)

theorem ne_of_matchLinkDelete (p : String) (h : matchLinkDelete p = true) :
    p ≠ "/health" ∧ p ≠ "/id" := by
  refine ⟨?_, ?_⟩ <;> intro e <;> rw [e] at h <;> exact absurd h (by decide)

/-! ### Route reduction lemmas -/

theorem fetch_post_id (env : Env) (req : Request) (store : Store) (now : Nat)
    (gen : Nat → String) (h1 : req.method = Method.POST) (h2 : req.path = "/id")
    (h3 : getRole req env ≠ Role.none) :
    fetch env req store now gen = postId store now gen req.body := by
  simp [fetch, h1, h2, h3]

theorem fetch_get_tag (env : Env) (req : Request) (store : Store) (now : Nat)
    (gen : Nat → String) (h1 : req.method = Method.GET)
    (h2 : strStarts "/id/" req.path = true) (h3 : getRole req env ≠ Role.none) :
    fetch env req store now gen = getId store (strDrop req.path 4) := by
  obtain ⟨hh, hi, _, _⟩ := ne_of_strStarts_id _ h2
  simp [fetch, h1, h2, h3, hh, hi]

theorem fetch_put_agent (env : Env) (req : Request) (store : Store) (now : Nat)
    (gen : Nat → String) (h1 : req.method = Method.PUT)
    (h2 : strStarts "/id/" req.path = true) (h3 : getRole req env = Role.agent) :
    fetch env req store now gen = (⟨403, RespData.errorData "Admin required"⟩, store) := by
  obtain ⟨hh, hi, _, _⟩ := ne_of_strStarts_id _ h2
  simp [fetch, h1, h2, h3, hh, hi]

theorem fetch_put_admin (env : Env) (req : Request) (store : Store) (now : Nat)
    (gen : Nat → String) (h1 : req.method = Method.PUT)
    (h2 : strStarts "/id/" req.path = true) (h3 : getRole req env = Role.admin) :
    fetch env req store now gen = putId store (strDrop req.path 4) req.body now := by
  obtain ⟨hh, hi, _, _⟩ := ne_of_strStarts_id _ h2
  simp [fetch, h1, h2, h3, hh, hi]

theorem fetch_delete_agent (env : Env) (req : Request) (store : Store) (now : Nat)
    (gen : Nat → String) (h1 : req.method = Method.DELETE)
    (h2 : strStarts "/id/" req.path = true) (h3 : getRole req env = Role.agent) :
    fetch env req store now gen = (⟨403, RespData.errorData "Admin required"⟩, store) := by
  obtain ⟨hh, hi, _, _⟩ := ne_of_strStarts_id _ h2
  simp [fetch, h1, h2, h3, hh, hi]

theorem fetch_delete_admin (env : Env) (req : Request) (store : Store) (now : Nat)
    (gen : Nat → String) (h1 : req.method = Method.DELETE)
    (h2 : strStarts "/id/" req.path = true) (h3 : getRole req env = Role.admin) :
    fetch env req store now gen = deleteId store (strDrop req.path 4) := by
  obtain ⟨hh, hi, _, _⟩ := ne_of_strStarts_id _ h2
  simp [fetch, h1, h2, h3, hh, hi]

theorem fetch_post_link (env : Env) (req : Request) (store : Store) (now : Nat)
    (gen : Nat → String) (h1 : req.method = Method.POST)
    (h2 : matchLinkPost req.path = true) (h3 : getRole req env ≠ Role.none) :
    fetch env req store now gen = postLink store (pathPart req.path 2) req.body now := by
  obtain ⟨hh, hi⟩ := ne_of_matchLinkPost _ h2
  simp [fetch, h1, h2, h3, hh, hi]

theorem fetch_delete_link_agent (env : Env) (req : Request) (store : Store)
    (now : Nat) (gen : Nat → String) (h1 : req.method = Method.DELETE)
    (h2 : matchLinkDelete req.path = true)
    (h2n : strStarts "/id/" req.path = false) (h3 : getRole req env = Role.agent) :
    fetch env req store now gen = (⟨403, RespData.errorData "Admin required"⟩, store) := by
  obtain ⟨hh, hi⟩ := ne_of_matchLinkDelete _ h2
  simp [fetch, h1, h2, h2n, h3, hh, hi]

theorem fetch_search (env : Env) (req : Request) (store : Store) (now : Nat)
    (gen : Nat → String) (h1 : req.method = Method.GET) (h2 : req.path = "/search")
    (h3 : getRole req env ≠ Role.none) :
    fetch env req store now gen = searchTags store (req.q.getD "") := by
  have hs : strStarts "/id/" "/search" = false := by decide
  simp [fetch, h1, h2, h3, hs]

theorem fetch_list (env : Env) (req : Request) (store : Store) (now : Nat)
    (gen : Nat → String) (h1 : req.method = Method.GET) (h2 : req.path = "/list")
    (h3 : getRole req env ≠ Role.none) :
    fetch env req store now gen = listTags store := by
  have hs : strStarts "/id/" "/list" = false := by decide
  simp [fetch, h1, h2, h3, hs]

theorem fetch_unauthorized (env : Env) (req : Request) (store : Store) (now : Nat)
    (gen : Nat → String) (h1 : req.path ≠ "/health")
    (h2 : getRole req env = Role.none) :
    fetch env req store now gen = (⟨401, RespData.errorData "Unauthorized"⟩, store) := by
  simp [fetch, h1, h2]

/-! ### Allocation loop lemmas -/

theorem allocLoop_eq_none_iff (ex : String → Bool) (gen : Nat → String) :
    ∀ fuel i, (allocLoop ex gen i fuel = Option.none ↔
      ∀ j, j < fuel → ex (gen (i + j)) = true) := by
  intro fuel
  induction fuel with
  | zero => intro i; simp [allocLoop]
  | succ n ih =>
    intro i
    rw [allocLoop]
    by_cases h : ex (gen i) = true
    · rw [if_pos h, ih (i + 1)]
      constructor
      · intro H j hj
        match j with
        | 0 => simpa using h
        | k + 1 =>
          have := H k (by omega)
          simpa [Nat.add_assoc, Nat.add_comm 1 k] using this
      · intro H j hj
        have := H (j + 1) (by omega)
        simpa [Nat.add_assoc, Nat.add_comm 1 j] using this
    · rw [if_neg h]
      constructor
      · intro H; simp at H
      · intro H; exact absurd (by simpa using H 0 (by omega)) h

theorem allocLoop_congr (ex : String → Bool) (gen gen2 : Nat → String) :
    ∀ fuel i, (∀ j, i ≤ j → j < i + fuel → gen j = gen2 j) →
      allocLoop ex gen i fuel = allocLoop ex gen2 i fuel := by
  intro fuel
  induction fuel with
  | zero => intro i _; simp [allocLoop]
  | succ n ih =>
    intro i H
    have hi : gen i = gen2 i := H i (Nat.le_refl i) (by omega)
    rw [allocLoop, allocLoop, hi]
    by_cases h : ex (gen2 i) = true
    · rw [if_pos h, if_pos h]
      exact ih (i + 1) (fun j hj1 hj2 => H j (by omega) (by omega))
    · rw [if_neg h, if_neg h]

theorem allocId_eq_none_iff (ex : String → Bool) (gen : Nat → String) :
    allocId ex gen = Option.none ↔ ∀ j, j < 10 → ex (gen j) = true := by
  simpa using allocLoop_eq_none_iff ex gen 10 0

theorem allocId_congr (ex : String → Bool) (gen gen2 : Nat → String)
    (H : ∀ j, j < 10 → gen j = gen2 j) : allocId ex gen = allocId ex gen2 :=
  allocLoop_congr ex gen gen2 10 0 (fun j _ hj2 => H j (by omega))

/-! ### Handler status lemmas -/

theorem postId_status (store : Store) (now : Nat) (gen : Nat → String) (body : Body) :
    (postId store now gen body).1.status = 400 ∨
    (postId store now gen body).1.status = 500 ∨
    (postId store now gen body).1.status = 201 := by
  unfold postId
  cases body.name with
  | none => simp
  | some n =>
    by_cases hn : n = ""
    · simp [hn]
    · cases h2 : allocId (tagExists store) gen <;> simp [hn, h2]

theorem getId_status (store : Store) (id : String) :
    (getId store id).1.status = 404 ∨ (getId store id).1.status = 200 := by
  unfold getId
  cases store.tags.find? (fun t => t.id == id) <;> simp

theorem postLink_status (store : Store) (id : String) (body : Body) (now : Nat) :
    (postLink store id body now).1.status = 400 ∨
    (postLink store id body now).1.status = 404 ∨
    (postLink store id body now).1.status = 201 := by
  unfold postLink
  by_cases h : falsy body.type || falsy body.url
  · simp [h]
  · rw [if_neg (by simpa using h)]
    cases hty : body.type with
    | none => simp
    | some ty =>
      cases hu : body.url with
      | none => simp
      | some u =>
        by_cases he : tagExists store id = true
        · simp [he]
        · simp [he]

/-! ### Alphabet predicates for the id-format claims -/

/-- The alphabet the code actually samples from: a-z without l and o, plus
the digits 2-9 (32 symbols). -/
def inIdAlphabet (c : Char) : Bool :=
  (('a' ≤ c && c ≤ 'z') && !(c == 'l') && !(c == 'o')) || ('2' ≤ c && c ≤ '9')

/-- The alphabet as the claim words it: a-z without i, l and o, plus the
digits 2-9. -/
def inClaimAlphabet (c : Char) : Bool :=
  (('a' ≤ c && c ≤ 'z') && !(c == 'i') && !(c == 'l') && !(c == 'o'))
    || ('2' ≤ c && c ≤ '9')

theorem charsetChar_in (i : Fin 32) : inIdAlphabet (charsetChar i) = true := by
  revert i; decide

end Pxd

namespace Cli

/-- Cached snapshot of a tag in ~/.pxd/cache.json (src/unnamed/part_001
lines 15-22). -/
structure CachedTag where
  id : String
  name : String
  meta : Option String
  links : List (String × String)
  created_at : Nat
  updated_at : Nat
deriving DecidableEq

/-- The cache mirror: a mapping keyed by tag id.  Every write goes through
cacheSet, which keys the entry by the tag's own id, so the mapping is
modelled as a list of tags with id-keyed lookup. -/
abbrev Cache := List CachedTag

/-- cacheSet (line 45-49): cache.tags[tag.id] = tag, an overwrite. -/
def cacheSet (cache : Cache) (t : CachedTag) : Cache :=
  t :: cache.filter (fun u => !(u.id == t.id))

/-- Lookup of cache.tags[id]. -/
def cacheGet (cache : Cache) (id : String) : Option CachedTag :=
  cache.find? (fun u => u.id == id)

/-- Cache effect of a successful create in cmdNew (lines 177-192):
cacheSet({...tag, updated_at: tag.created_at, links: []}). -/
def cmdNewCache (cache : Cache) (id name : String) (meta : Option String)
    (created : Nat) : Cache :=
  cacheSet cache ⟨id, name, meta, [], created, created⟩

/-- Cache effect of a successful fetch in cmdShow (lines 194-205):
cacheSet(tag). -/
def cmdShowCache (cache : Cache) (t : CachedTag) : Cache :=
  cacheSet cache t

/-- Cache effect of a successful link-add in cmdLink (lines 226-246): only
an already-cached tag is merged; otherwise nothing is written. -/
def cmdLinkCache (cache : Cache) (id ty u : String) (now : Nat) : Cache :=
  match cacheGet cache id with
  | Option.none => cache
  | Option.some t =>
    cacheSet cache { t with links := t.links ++ [(ty, u)], updated_at := now }

/-- The name cmdNew posts: body { name: name || '' } (line 178), where the
argument is undefined when `pxd new` is invoked without a name. -/
def cmdNewName (name : Option String) : String :=
  name.getD ""

/-- Client configuration (~/.pxd/config.json); the empty string models an
absent key, matching JavaScript falsiness under the || chains. -/
structure Config where
  admin_key : String
  agent_key : String
deriving DecidableEq

/-- JavaScript `a || b` on strings: the empty string is the only falsy
string. -/
def jsOr (a b : String) : String :=
  if a = "" then b else a

/-- Key selection of the cache-aware CLI (src/unnamed/part_001 line 115):
process.env.PXD_KEY || config.admin_key || config.agent_key || ''. -/
def getKey (config : Config) (envKey : String) : String :=
  jsOr envKey (jsOr config.admin_key (jsOr config.agent_key ""))

theorem cacheGet_cacheSet (cache : Cache) (t : CachedTag) :
    cacheGet (cacheSet cache t) t.id = Option.some t := by
  simp [cacheGet, cacheSet, List.find?]

end Cli

namespace CliOld

/-- Key selection of the older CLI (src/cli/pxd.ts lines 42-45):
config.admin_key || config.agent_key || process.env.PXD_KEY || ''. -/
def getKey (config : Cli.Config) (envKey : String) : String :=
  Cli.jsOr config.admin_key (Cli.jsOr config.agent_key (Cli.jsOr envKey ""))

end CliOld

open Pxd

/-! ### Concrete fixtures used by counterexamples and witnesses -/

def envW : Env := ⟨"adminsecret", "agentsecret"⟩

def noBody : Body := ⟨Option.none, Option.none, Option.none, Option.none⟩

def genW : Nat → String := fun _ => "pxzzzzzzz"

def genW2 : Nat → String := fun i => if i < 10 then "pxzzzzzzz" else "pxaaaaaaa"

def emptyStore : Store := ⟨[], []⟩

/-! ### C2 — id generator format -/

/-- C2 counterexample: the code draws from CHARSET, which contains the
letter i (CHARSET[8]).  When every draw is 8 the generated id is
"pxiiiiiii", whose suffix characters all lie outside the claim's alphabet
a-z minus i,l,o plus 2-9, refuting "no suffix character lies outside that
alphabet". -/
theorem C2_counterexample :
    generateId (fun _ => (8 : Fin 32)) = "pxiiiiiii"
  ∧ 'i' ∈ (strDrop (generateId (fun _ => (8 : Fin 32))) 2).toList
  ∧ inClaimAlphabet 'i' = false := by decide

/-- C2 (amended): every generated id is exactly 9 characters, the fixed
prefix "px" followed by 7 characters, each drawn from the 32-symbol
alphabet a-z except l,o together with the digits 2-9; no suffix character
lies outside that alphabet, every CHARSET symbol lies inside it, and
CHARSET has 32 distinct symbols. -/
theorem C2_id_format (draws : Fin 7 → Fin 32) :
    (generateId draws).length = 9
  ∧ strTake (generateId draws) 2 = "px"
  ∧ (∀ c, c ∈ (strDrop (generateId draws) 2).toList → inIdAlphabet c = true)
  ∧ CHARSET.length = 32
  ∧ CHARSET.toList.Nodup
  ∧ (∀ c, c ∈ CHARSET.toList → inIdAlphabet c = true) := by
  refine ⟨rfl, rfl, ?_, by decide, by decide, by decide⟩
  intro c hc
  have he : (strDrop (generateId draws) 2).toList
      = (List.finRange 7).map (fun j => charsetChar (draws j)) := rfl
  rw [he] at hc
  obtain ⟨j, _, rfl⟩ := List.mem_map.mp hc
  exact charsetChar_in (draws j)

/-- C2 witness: the amended format theorem applied at the all-zero draw,
whose suffix contains the character a. -/
theorem C2_id_format_witness : inIdAlphabet 'a' = true :=
  (C2_id_format (fun _ => (0 : Fin 32))).2.2.1 'a' (by decide)

/-! ### C4 — empty name at creation -/

/-- C4: the worker rejects an empty name.  The cache-aware CLI's `pxd new`
without an argument posts name = "" (first conjunct), and the worker
answers 400 "name required" for that request because the empty string is
falsy in the check `if (!body.name)` — creation with an empty name never
succeeds, contradicting the claim (and the CLI's documented
"name optional" usage). -/
theorem C4_empty_name_rejected :
    Cli.cmdNewName Option.none = ""
  ∧ fetch envW ⟨Method.POST, "/id", Option.some "agentsecret", Option.none,
      ⟨Option.some "", Option.none, Option.none, Option.none⟩⟩ emptyStore 5 genW
    = (⟨400, RespData.errorData "name required"⟩, emptyStore) := by decide

/-! ### C7 — remove-link is shadowed by the tag-delete route -/

def storeL : Store :=
  ⟨[⟨"pxabc2345", "Echo project", "{}", 5, 5⟩],
   [⟨"pxabc2345", "github", "https://github.com/x/echo", 6⟩]⟩

/-- C7: an admin DELETE /id/pxabc2345/link/github — a path the remove-link
route regex matches (second conjunct) — is captured by the earlier
DELETE-with-path.startsWith('/id/') route, which deletes the tag with id
"pxabc2345/link/github" (no such row) and answers ok; the store, and in
particular the matching github link (third conjunct), is left unchanged, so
removeLink never deletes matching links. -/
theorem C7_removeLink_shadowed :
    fetch envW ⟨Method.DELETE, "/id/pxabc2345/link/github",
      Option.some "adminsecret", Option.none, noBody⟩ storeL 9 genW
      = (⟨200, RespData.okData⟩, storeL)
  ∧ matchLinkDelete "/id/pxabc2345/link/github" = true
  ∧ storeL.links = [⟨"pxabc2345", "github", "https://github.com/x/echo", 6⟩] := by
  decide

/-! ### C1 — authorization matrix -/

def reqBadKey : Request :=
  ⟨Method.POST, "/id", Option.some "B", Option.none,
   ⟨Option.some "x", Option.none, Option.none, Option.none⟩⟩

/-- C1 counterexample: a request to the gated path POST /id that presents a
credential matching neither secret.  Its role is none, below the minimum
role agent, and a credential is presented — yet the worker answers 401
Unauthorized, not 403 Forbidden as the claim requires for a presented
credential of insufficient role. -/
theorem C1_counterexample :
    reqBadKey.key = Option.some "B"
  ∧ getRole reqBadKey envW = Role.none
  ∧ (fetch envW reqBadKey emptyStore 0 genW).1.status = 401
  ∧ ¬ (fetch envW reqBadKey emptyStore 0 genW).1.status = 403 := by decide

/-- C1 (amended): on every gated path a request whose credential maps to
role none — absent, empty, or matching neither secret — fails 401
Unauthorized; an agent credential gets 403 Forbidden on update (PUT
/id/...), delete (DELETE /id/...) and remove-link (DELETE matching the
link regex), and passes the gate (neither 401 nor 403) on create, get,
add-link, search and list. -/
theorem C1_auth_gate (env : Env) (req : Request) (store : Store) (now : Nat)
    (gen : Nat → String) :
    (req.path ≠ "/health" → getRole req env = Role.none →
       (fetch env req store now gen).1.status = 401)
  ∧ (getRole req env = Role.agent →
       ((req.method = Method.PUT ∨ req.method = Method.DELETE) →
          strStarts "/id/" req.path = true →
          (fetch env req store now gen).1.status = 403)
     ∧ (req.method = Method.DELETE → matchLinkDelete req.path = true →
          (fetch env req store now gen).1.status = 403)
     ∧ (req.method = Method.POST → req.path = "/id" →
          ¬ (fetch env req store now gen).1.status = 401 ∧
          ¬ (fetch env req store now gen).1.status = 403)
     ∧ (req.method = Method.GET → strStarts "/id/" req.path = true →
          ¬ (fetch env req store now gen).1.status = 401 ∧
          ¬ (fetch env req store now gen).1.status = 403)
     ∧ (req.method = Method.POST → matchLinkPost req.path = true →
          ¬ (fetch env req store now gen).1.status = 401 ∧
          ¬ (fetch env req store now gen).1.status = 403)
     ∧ (req.method = Method.GET → req.path = "/search" →
          (fetch env req store now gen).1.status = 200)
     ∧ (req.method = Method.GET → req.path = "/list" →
          (fetch env req store now gen).1.status = 200)) := by
  constructor
  · intro hp hrole
    rw [fetch_unauthorized env req store now gen hp hrole]
  · intro hagent
    have hr : getRole req env ≠ Role.none := by rw [hagent]; simp
    refine ⟨?_, ?_, ?_, ?_, ?_, ?_, ?_⟩
    · rintro (hm | hm) hs
      · rw [fetch_put_agent env req store now gen hm hs hagent]
      · rw [fetch_delete_agent env req store now gen hm hs hagent]
    · intro hm hmatch
      by_cases hsw : strStarts "/id/" req.path = true
      · rw [fetch_delete_agent env req store now gen hm hsw hagent]
      · have hsw2 : strStarts "/id/" req.path = false := by
          simpa using hsw
        rw [fetch_delete_link_agent env req store now gen hm hmatch hsw2 hagent]
    · intro hm hp
      rw [fetch_post_id env req store now gen hm hp hr]
      rcases postId_status store now gen req.body with h | h | h <;> rw [h] <;> simp
    · intro hm hs
      rw [fetch_get_tag env req store now gen hm hs hr]
      rcases getId_status store (strDrop req.path 4) with h | h <;> rw [h] <;> simp
    · intro hm hmatch
      rw [fetch_post_link env req store now gen hm hmatch hr]
      rcases postLink_status store (pathPart req.path 2) req.body now with h | h | h <;>
        rw [h] <;> simp
    · intro hm hp
      rw [fetch_search env req store now gen hm hp hr]
      rfl
    · intro hm hp
      rw [fetch_list env req store now gen hm hp hr]
      rfl

/-- C1 witness: no credential on the gated path GET /list yields 401. -/
theorem C1_auth_gate_witness :
    (fetch envW ⟨Method.GET, "/list", Option.none, Option.none, noBody⟩
        emptyStore 0 genW).1.status = 401 :=
  (C1_auth_gate envW ⟨Method.GET, "/list", Option.none, Option.none, noBody⟩
      emptyStore 0 genW).1 (by decide) (by decide)

/-! ### C3 — bounded id allocation -/

theorem postId_some (store : Store) (now : Nat) (gen : Nat → String)
    (body : Body) (n : String) (hname : body.name = Option.some n)
    (hne : ¬ n = "") :
    postId store now gen body =
      match allocId (tagExists store) gen with
      | Option.none => (⟨500, RespData.errorData "Failed to generate unique ID"⟩, store)
      | Option.some id =>
        (⟨201, RespData.createdData id n (metaStr body.meta) now⟩,
         ⟨store.tags ++ [⟨id, n, metaStr body.meta, now, now⟩], store.links⟩) := by
  unfold postId
  rw [hname]
  simp [hne]

/-- C3: for a POST /id request that passes the gate and carries a non-falsy
name, the response is the 500 id-space-exhausted error exactly when every
one of the 10 generated candidate ids already exists in the store;
otherwise exactly one Tag row is appended, with created_at equal to
updated_at equal to now and the links table untouched; and the whole
outcome depends only on the first 10 generator calls (the loop never draws
an 11th candidate or performs an 11th existence check). -/
theorem C3_allocation (env : Env) (req : Request) (store : Store) (now : Nat)
    (gen gen2 : Nat → String) (n : String)
    (hm : req.method = Method.POST) (hp : req.path = "/id")
    (hr : getRole req env ≠ Role.none)
    (hname : req.body.name = Option.some n) (hne : ¬ n = "") :
    ((fetch env req store now gen).1.status = 500 ↔
       ∀ i, i < 10 → tagExists store (gen i) = true)
  ∧ ((fetch env req store now gen).1.status ≠ 500 →
       ∃ t : Tag, (fetch env req store now gen).2.tags = store.tags ++ [t]
         ∧ t.created_at = now ∧ t.updated_at = now
         ∧ (fetch env req store now gen).2.links = store.links)
  ∧ ((∀ i, i < 10 → gen i = gen2 i) →
       fetch env req store now gen = fetch env req store now gen2) := by
  rw [fetch_post_id env req store now gen hm hp hr,
      fetch_post_id env req store now gen2 hm hp hr,
      postId_some store now gen req.body n hname hne,
      postId_some store now gen2 req.body n hname hne]
  have key := allocId_eq_none_iff (tagExists store) gen
  refine ⟨?_, ?_, ?_⟩
  · cases halloc : allocId (tagExists store) gen with
    | none =>
      rw [halloc] at key
      simp only [true_iff] at key
      exact ⟨fun _ => key, fun _ => rfl⟩
    | some id =>
      rw [halloc] at key
      constructor
      · intro h; simp at h
      · intro hall
        exact absurd (key.mpr hall) (by simp)
  · cases halloc : allocId (tagExists store) gen with
    | none => intro h; exact absurd rfl h
    | some id =>
      intro _
      exact ⟨⟨id, n, metaStr req.body.meta, now, now⟩, rfl, rfl, rfl, rfl⟩
  · intro H
    rw [allocId_congr (tagExists store) gen gen2 H]

def reqNewW : Request :=
  ⟨Method.POST, "/id", Option.some "agentsecret", Option.none,
   ⟨Option.some "Echo project", Option.none, Option.none, Option.none⟩⟩

/-- C3 witness: two generator streams that agree on their first 10
candidates give identical outcomes for a concrete create request. -/
theorem C3_allocation_witness :
    fetch envW reqNewW emptyStore 5 genW = fetch envW reqNewW emptyStore 5 genW2 :=
  (C3_allocation envW reqNewW emptyStore 5 genW genW2 "Echo project" rfl rfl
      (by decide) rfl (by decide)).2.2 (by decide)

/-! ### C5 — addLink inserts one Link row and leaves the Tag row alone -/

theorem postLink_some (store : Store) (now : Nat) (body : Body)
    (ty u : String) (hty : body.type = Option.some ty)
    (hu : body.url = Option.some u) (hty2 : ¬ ty = "") (hu2 : ¬ u = "")
    (id : String) :
    postLink store id body now =
      if tagExists store id then
        (⟨201, RespData.okData⟩, ⟨store.tags, store.links ++ [⟨id, ty, u, now⟩]⟩)
      else (⟨404, RespData.errorData "Tag not found"⟩, store) := by
  have h1 : falsy (Option.some ty) = false := by simp [falsy, hty2]
  have h2 : falsy (Option.some u) = false := by simp [falsy, hu2]
  unfold postLink
  rw [hty, hu]
  simp [h1, h2]

/-- C5: a POST /id/:id/link request that passes the gate and carries
non-falsy type and url fields fails 404 Tag-not-found when no Tag with that
id exists, and otherwise answers 201 with exactly one Link row appended
while the tags table — every Tag row, updated_at included — is left
completely unchanged. -/
theorem C5_addLink (env : Env) (req : Request) (store : Store) (now : Nat)
    (gen : Nat → String) (ty u : String) (hm : req.method = Method.POST)
    (hmatch : matchLinkPost req.path = true)
    (hr : getRole req env ≠ Role.none)
    (hty : req.body.type = Option.some ty)
    (hu : req.body.url = Option.some u)
    (hty2 : ¬ ty = "") (hu2 : ¬ u = "") :
    (tagExists store (pathPart req.path 2) = false →
       fetch env req store now gen = (⟨404, RespData.errorData "Tag not found"⟩, store))
  ∧ (tagExists store (pathPart req.path 2) = true →
       (fetch env req store now gen).1 = ⟨201, RespData.okData⟩
     ∧ (fetch env req store now gen).2.tags = store.tags
     ∧ (fetch env req store now gen).2.links =
         store.links ++ [⟨pathPart req.path 2, ty, u, now⟩]) := by
  rw [fetch_post_link env req store now gen hm hmatch hr,
      postLink_some store now req.body ty u hty hu hty2 hu2 (pathPart req.path 2)]
  constructor
  · intro hex; simp [hex]
  · intro hex; simp [hex]

def reqLinkW : Request :=
  ⟨Method.POST, "/id/pxabc2345/link", Option.some "agentsecret", Option.none,
   ⟨Option.none, Option.none, Option.some "github",
    Option.some "https://github.com/x/echo"⟩⟩

def storeT : Store := ⟨[⟨"pxabc2345", "Echo project", "{}", 5, 5⟩], []⟩

/-- C5 witness: adding a github link to an existing tag appends one Link
row and leaves the tags table unchanged. -/
theorem C5_addLink_witness :
    (fetch envW reqLinkW storeT 7 genW).1 = ⟨201, RespData.okData⟩
  ∧ (fetch envW reqLinkW storeT 7 genW).2.tags = storeT.tags
  ∧ (fetch envW reqLinkW storeT 7 genW).2.links =
      storeT.links ++ [⟨"pxabc2345", "github", "https://github.com/x/echo", 7⟩] :=
  (C5_addLink envW reqLinkW storeT 7 genW "github" "https://github.com/x/echo"
      rfl (by decide) (by decide) rfl rfl (by decide) (by decide)).2 (by decide)

/-! ### C6 — partial update semantics -/

def store1 : Store := ⟨[⟨"pxabc2345", "old", "{}", 5, 5⟩], []⟩

def reqPutEmpty : Request :=
  ⟨Method.PUT, "/id/pxabc2345", Option.some "adminsecret", Option.none,
   ⟨Option.some "", Option.none, Option.none, Option.none⟩⟩

/-- C6 counterexample: an admin PUT /id/pxabc2345 whose body provides the
name field with value "" answers ok, yet the stored name stays "old" — a
provided field that does not take its new value (only updated_at moved to
9), refuting "each provided field takes its new value". -/
theorem C6_counterexample :
    reqPutEmpty.body.name = Option.some ""
  ∧ fetch envW reqPutEmpty store1 9 genW
      = (⟨200, RespData.okData⟩, ⟨[⟨"pxabc2345", "old", "{}", 5, 9⟩], []⟩)
  ∧ ¬ ("old" = "") := by decide

/-- C6 (amended): an admin PUT /id/:id fails 404 Not-found exactly when the
id is absent; otherwise it answers ok and rewrites only the addressed Tag
row as updatedTag does — a provided non-empty name replaces the name, a
provided empty name is ignored, a provided meta replaces meta, updated_at
is always bumped to now — while every other row and the links table are
unchanged. -/
theorem C6_update (env : Env) (req : Request) (store : Store) (now : Nat)
    (gen : Nat → String) (hm : req.method = Method.PUT)
    (hs : strStarts "/id/" req.path = true)
    (hadmin : getRole req env = Role.admin) :
    (tagExists store (strDrop req.path 4) = false →
       fetch env req store now gen = (⟨404, RespData.errorData "Not found"⟩, store))
  ∧ (tagExists store (strDrop req.path 4) = true →
       (fetch env req store now gen).1 = ⟨200, RespData.okData⟩
     ∧ (fetch env req store now gen).2.links = store.links
     ∧ (fetch env req store now gen).2.tags =
         store.tags.map (fun t =>
           if t.id = strDrop req.path 4 then updatedTag req.body now t else t)) := by
  rw [fetch_put_admin env req store now gen hm hs hadmin]
  constructor
  · intro hex; simp [putId, hex]
  · intro hex; simp [putId, hex]

def reqPutW : Request :=
  ⟨Method.PUT, "/id/pxabc2345", Option.some "adminsecret", Option.none,
   ⟨Option.some "new name", Option.some "7", Option.none, Option.none⟩⟩

/-- C6 witness: an admin update with a non-empty name and a meta value
rewrites exactly the addressed row. -/
theorem C6_update_witness :
    (fetch envW reqPutW store1 11 genW).1 = ⟨200, RespData.okData⟩
  ∧ (fetch envW reqPutW store1 11 genW).2.links = store1.links
  ∧ (fetch envW reqPutW store1 11 genW).2.tags =
      store1.tags.map (fun t =>
        if t.id = strDrop reqPutW.path 4 then updatedTag reqPutW.body 11 t else t) :=
  (C6_update envW reqPutW store1 11 genW rfl (by decide) (by decide)).2 (by decide)

/-! ### C10 — an empty name cannot be assigned through update -/

/-- C10: an admin PUT /id/:id on an existing tag whose body sets name to
the empty string answers ok; every tag keeps its name (second conjunct),
and the addressed row changes only in meta (when provided) and updated_at,
which is bumped to now — the empty string is never assigned to a name
through update. -/
theorem C10_empty_name_update (env : Env) (req : Request) (store : Store)
    (now : Nat) (gen : Nat → String) (hm : req.method = Method.PUT)
    (hs : strStarts "/id/" req.path = true)
    (hadmin : getRole req env = Role.admin)
    (hname : req.body.name = Option.some "")
    (hex : tagExists store (strDrop req.path 4) = true) :
    (fetch env req store now gen).1 = ⟨200, RespData.okData⟩
  ∧ ((fetch env req store now gen).2.tags.map (fun t => t.name)
       = store.tags.map (fun t => t.name))
  ∧ (fetch env req store now gen).2.tags =
      store.tags.map (fun t =>
        if t.id = strDrop req.path 4
        then ⟨t.id, t.name, req.body.meta.getD t.meta, t.created_at, now⟩
        else t) := by
  rw [fetch_put_admin env req store now gen hm hs hadmin]
  have hrow : ∀ t : Tag,
      (if t.id = strDrop req.path 4 then updatedTag req.body now t else t)
        = (if t.id = strDrop req.path 4
           then ⟨t.id, t.name, req.body.meta.getD t.meta, t.created_at, now⟩
           else t) := by
    intro t
    by_cases h : t.id = strDrop req.path 4 <;> simp [h, updatedTag, hname]
  refine ⟨by simp [putId, hex], ?_, ?_⟩
  · simp only [putId, hex, if_true]
    induction store.tags with
    | nil => rfl
    | cons a as ih =>
      simp only [List.map_cons, ih, List.cons.injEq, and_true]
      by_cases h : a.id = strDrop req.path 4 <;> simp [h, updatedTag, hname]
  · have hred : (putId store (strDrop req.path 4) req.body now).2.tags
        = store.tags.map (fun t =>
            if t.id = strDrop req.path 4 then updatedTag req.body now t else t) := by
      simp [putId, hex]
    rw [hred]
    exact List.map_congr_left (fun t _ => hrow t)

def store2 : Store := ⟨[⟨"pxq234567", "Keep", "{}", 3, 4⟩], []⟩

def reqPutEmpty2 : Request :=
  ⟨Method.PUT, "/id/pxq234567", Option.some "adminsecret", Option.none,
   ⟨Option.some "", Option.none, Option.none, Option.none⟩⟩

/-- C10 witness: a concrete empty-name update leaves the name "Keep" in
place while bumping updated_at to 8. -/
theorem C10_empty_name_update_witness :
    (fetch envW reqPutEmpty2 store2 8 genW).1 = ⟨200, RespData.okData⟩
  ∧ ((fetch envW reqPutEmpty2 store2 8 genW).2.tags.map (fun t => t.name)
       = store2.tags.map (fun t => t.name))
  ∧ (fetch envW reqPutEmpty2 store2 8 genW).2.tags =
      store2.tags.map (fun t =>
        if t.id = strDrop reqPutEmpty2.path 4
        then ⟨t.id, t.name, reqPutEmpty2.body.meta.getD t.meta, t.created_at, 8⟩
        else t) :=
  C10_empty_name_update envW reqPutEmpty2 store2 8 genW rfl (by decide)
    (by decide) rfl (by decide)

/-! ### C8 — cache updates on create, read and link-add -/

/-- C8 counterexample: a successful link-add on a tag that is not in the
cache writes nothing — the affected tag is still absent from the cache
afterwards, refuting "after every successful link-add the affected Tag is
written (or merged) into the cache". -/
theorem C8_counterexample :
    Cli.cmdLinkCache [] "pxabc2345" "github" "https://github.com/x/echo" 9
      = ([] : Cli.Cache)
  ∧ Cli.cacheGet
      (Cli.cmdLinkCache [] "pxabc2345" "github" "https://github.com/x/echo" 9)
      "pxabc2345" = Option.none := by decide

/-- C8 (amended): a successful create or single-tag read always writes the
affected Tag into the cache, overwriting any stale entry for that id; a
successful link-add merges the cached entry (appending the link and
bumping updated_at) when an entry for that id exists, and leaves the cache
unchanged when none does. -/
theorem C8_cache_writes :
    (∀ (cache : Cli.Cache) (id name : String) (meta : Option String) (created : Nat),
       Cli.cacheGet (Cli.cmdNewCache cache id name meta created) id
         = Option.some ⟨id, name, meta, [], created, created⟩)
  ∧ (∀ (cache : Cli.Cache) (t : Cli.CachedTag),
       Cli.cacheGet (Cli.cmdShowCache cache t) t.id = Option.some t)
  ∧ (∀ (cache : Cli.Cache) (id ty u : String) (now : Nat),
       (∀ t, Cli.cacheGet cache id = Option.some t →
          Cli.cacheGet (Cli.cmdLinkCache cache id ty u now) id
            = Option.some ⟨t.id, t.name, t.meta, t.links ++ [(ty, u)],
                t.created_at, now⟩)
     ∧ (Cli.cacheGet cache id = Option.none →
          Cli.cmdLinkCache cache id ty u now = cache)) := by
  refine ⟨?_, ?_, ?_⟩
  · intro cache id name meta created
    exact Cli.cacheGet_cacheSet cache ⟨id, name, meta, [], created, created⟩
  · intro cache t
    exact Cli.cacheGet_cacheSet cache t
  · intro cache id ty u now
    constructor
    · intro t ht
      have hid : t.id = id := by
        have := List.find?_some ht
        simpa using this
      unfold Cli.cmdLinkCache
      rw [ht]
      rw [← hid]
      exact Cli.cacheGet_cacheSet cache
        ⟨t.id, t.name, t.meta, t.links ++ [(ty, u)], t.created_at, now⟩
    · intro h
      simp [Cli.cmdLinkCache, h]

def cacheW : Cli.Cache := Cli.cacheSet [] ⟨"pxq234567", "Keep", Option.none, [], 3, 4⟩

/-- C8 witness: a link-add on a cached tag merges the link and bumps the
cached updated_at. -/
theorem C8_cache_writes_witness :
    Cli.cacheGet (Cli.cmdLinkCache cacheW "pxq234567" "github" "u" 9) "pxq234567"
      = Option.some ⟨"pxq234567", "Keep", Option.none, [("github", "u")], 3, 9⟩ :=
  (C8_cache_writes.2.2 cacheW "pxq234567" "github" "u" 9).1
    ⟨"pxq234567", "Keep", Option.none, [], 3, 4⟩ (by decide)

/-! ### C9 — key precedence between PXD_KEY and config keys -/

/-- C9 counterexample: in the older CLI (src/cli/pxd.ts) a configuration
with both PXD_KEY and admin_key set sends the admin_key, not the
environment value — the environment variable does not take precedence
there. -/
theorem C9_counterexample :
    CliOld.getKey ⟨"configadmin", "configagent"⟩ "envkey" = "configadmin"
  ∧ ¬ ("configadmin" = "envkey") := by decide

/-- C9 (amended): in the cache-aware CLI a set PXD_KEY always wins over
the config keys; in the older CLI a set admin_key wins over everything, a
set agent_key wins next, and PXD_KEY is used only when both config keys
are unset. -/
theorem C9_env_key (config : Cli.Config) (envKey : String) :
    (¬ envKey = "" → Cli.getKey config envKey = envKey)
  ∧ (¬ config.admin_key = "" → CliOld.getKey config envKey = config.admin_key)
  ∧ (config.admin_key = "" → ¬ config.agent_key = "" →
       CliOld.getKey config envKey = config.agent_key)
  ∧ (config.admin_key = "" → config.agent_key = "" →
       CliOld.getKey config envKey = envKey) := by
  refine ⟨?_, ?_, ?_, ?_⟩
  · intro h; simp [Cli.getKey, Cli.jsOr, h]
  · intro h; simp [CliOld.getKey, Cli.jsOr, h]
  · intro h1 h2; simp [CliOld.getKey, Cli.jsOr, h1, h2]
  · intro h1 h2
    by_cases he : envKey = "" <;> simp [CliOld.getKey, Cli.jsOr, h1, h2, he]

/-- C9 witness: with both PXD_KEY and config keys set, the cache-aware CLI
sends the environment value. -/
theorem C9_env_key_witness :
    Cli.getKey ⟨"configadmin", "configagent"⟩ "envkey" = "envkey" :=
  (C9_env_key ⟨"configadmin", "configagent"⟩ "envkey").1 (by decide)
